import Mathlib

/-!
Verification of the fund CRUD service (app/main.py).

The service persists a single ordered collection of fund records in a flat
file.  Each handler loads the whole collection, linear-scans or mutates it,
and writes the whole collection back on success only.  We embed the
collection as a list of records, each handler as a function from the loaded
collection (plus request data) to an Except value: ok carries the collection
that gets persisted via save_json, error carries the HTTPException raised
(or, for exceptions the handler does not catch, the uncaught exception that
the framework turns into an internal server error response).

Floating-point request values are embedded as rationals: the only operations
the code performs on them are order comparisons against 0 and 100 and
storage.
-/

set_option autoImplicit false

namespace FundApi

/-- Error outcomes of a handler: notFound and badRequest are the
HTTPException raises with their detail strings (404 and 400); internal is
the 500 HTTPException raised from a catch-all except block; uncaught is an
exception the handler body does not catch, which the framework reports as a
500 internal server error. -/
inductive ApiError where
  | notFound (detail : String)
  | badRequest (detail : String)
  | internal (detail : String)
  | uncaught (exn : String)
deriving DecidableEq, Repr

/-- A well-typed fund record, the shape documented in app/main.py docstrings
and the spec data model. -/
structure Fund where
  fund_id : String
  fund_name : String
  manager_name : String
  desc : String
  net_asset : Rat
  created_at : String
  performance : Rat
deriving DecidableEq, Repr

/-- A JSON scalar as far as this schema is concerned: fund fields are
strings or numbers. -/
inductive JVal where
  | str (s : String)
  | num (q : Rat)
deriving DecidableEq, Repr

/-- A raw stored record as loaded from the JSON file: each of the seven
fund keys is either absent or holds a scalar of either kind. -/
structure RawFund where
  fund_id : Option JVal
  fund_name : Option JVal
  manager_name : Option JVal
  desc : Option JVal
  net_asset : Option JVal
  created_at : Option JVal
  performance : Option JVal
deriving DecidableEq, Repr

/-- Modelled from the spec: the FundDetails pydantic model lives in
app/definitions.py, which is not part of the sources; section 4.2 of the
spec says it validates that a submitted payload has all required fields
with correct types (strings for the string fields, numbers for net_asset
and performance) and imposes no range constraint on performance at
creation. Returns the validated record, or none for a ValidationError. -/
def fundDetails (v1 v2 v3 v4 v5 v6 v7 : JVal) : Option Fund :=
  match v1, v2, v3, v4, v5, v6, v7 with
  | .str i, .str n, .str m, .str d, .num a, .str c, .num p =>
      some ⟨i, n, m, d, a, c, p⟩
  | _, _, _, _, _, _, _ => none

/-- One iteration of the loop in retrieve_all_funds (main.py lines 56-76):
the dict literal reads the seven keys in order, raising an uncaught
KeyError on the first absent key; then FundDetails validates the mapped
dict, and a ValidationError is caught and re-raised as a 400. -/
def rawToFund (r : RawFund) : Except ApiError Fund :=
  match r.fund_id with
  | none => .error (.uncaught "KeyError: fund_id")
  | some v1 =>
  match r.fund_name with
  | none => .error (.uncaught "KeyError: fund_name")
  | some v2 =>
  match r.manager_name with
  | none => .error (.uncaught "KeyError: manager_name")
  | some v3 =>
  match r.desc with
  | none => .error (.uncaught "KeyError: desc")
  | some v4 =>
  match r.net_asset with
  | none => .error (.uncaught "KeyError: net_asset")
  | some v5 =>
  match r.created_at with
  | none => .error (.uncaught "KeyError: created_at")
  | some v6 =>
  match r.performance with
  | none => .error (.uncaught "KeyError: performance")
  | some v7 =>
  match fundDetails v1 v2 v3 v4 v5 v6 v7 with
  | some fd => .ok fd
  | none => .error (.badRequest "Failed to retrieve all funds: validation error")

/-- The first key, in dict-literal order, that is absent from a raw record;
none when all seven keys are present. -/
def firstMissingKey (r : RawFund) : Option String :=
  if r.fund_id.isNone then some "fund_id"
  else if r.fund_name.isNone then some "fund_name"
  else if r.manager_name.isNone then some "manager_name"
  else if r.desc.isNone then some "desc"
  else if r.net_asset.isNone then some "net_asset"
  else if r.created_at.isNone then some "created_at"
  else if r.performance.isNone then some "performance"
  else none

/-- The loop of retrieve_all_funds: maps rawToFund over the stored records
left to right, stopping at the first error. -/
def mapFunds : List RawFund → Except ApiError (List Fund)
  | [] => .ok []
  | r :: rest =>
    match rawToFund r with
    | .error e => .error e
    | .ok fd =>
      match mapFunds rest with
      | .error e => .error e
      | .ok tl => .ok (fd :: tl)

/-- GET /get-funds (main.py lines 28-83): an empty collection returns the
empty list with a warning log; otherwise every stored record is mapped onto
the FundDetails shape, fail-fast. -/
def retrieve_all_funds (funds : List RawFund) : Except ApiError (List Fund) :=
  if funds.length = 0 then .ok [] else mapFunds funds

/-- POST /create-fund (main.py lines 85-125): 400 on fund_id conflict, then
400 on fund_name conflict, otherwise append and persist. -/
def create_fund (funds : List Fund) (fund : Fund) : Except ApiError (List Fund) :=
  if funds.any fun f => f.fund_id == fund.fund_id then
    .error (.badRequest "Fund was not created due to ID conflict")
  else if funds.any fun f => f.fund_name == fund.fund_name then
    .error (.badRequest "Fund was not created to avoid duplication conflict")
  else
    .ok (funds ++ [fund])

/-- GET /get-one-fund (main.py lines 128-164): linear scan breaking on the
first record whose fund_id matches; 404 when none does. -/
def retrieve_specific_fund (funds : List Fund) (fund_id : String) : Except ApiError Fund :=
  match funds.find? (fun f => f.fund_id == fund_id) with
  | some f => .ok f
  | none => .error (.notFound "Failed to retrieve specific fund.")

/-- The in-place mutation fund["performance"] = performance on the first
record the scan of update_fund_performance found: the record at the first
matching position has its performance field replaced, all other records
are untouched. -/
def updateFirst : List Fund → String → Rat → List Fund
  | [], _, _ => []
  | f :: rest, fid, p =>
    if f.fund_id = fid then { f with performance := p } :: rest
    else f :: updateFirst rest fid p

/-- PATCH /update-fund (main.py lines 167-204): scan for the first matching
fund_id; 404 when absent; 400 when the performance value is outside
[0, 100]; otherwise mutate that record and persist. -/
def update_fund_performance (funds : List Fund) (fund_id : String) (performance : Rat) :
    Except ApiError (List Fund) :=
  match funds.find? (fun f => f.fund_id == fund_id) with
  | none => .error (.notFound "Failed to update fund performance.")
  | some _ =>
    if ¬ (0 ≤ performance ∧ performance ≤ 100) then
      .error (.badRequest "Failed to update fund performance.")
    else
      .ok (updateFirst funds fund_id performance)

/-- DELETE /remove-fund (main.py lines 207-237): scan for the first record
with matching fund_id; 404 when absent; otherwise funds.remove(fund)
removes the first record equal to the found one, and the collection is
persisted. -/
def delete_fund (funds : List Fund) (fund_id : String) : Except ApiError (List Fund) :=
  match funds.find? (fun f => f.fund_id == fund_id) with
  | none => .error (.notFound "Failed to delete fund")
  | some fund => .ok (funds.erase fund)

/-- The stored collection after a handler runs: save_json is called only on
the success path, so an error leaves the file holding the prior
collection. -/
def storeAfter (funds : List Fund) (r : Except ApiError (List Fund)) : List Fund :=
  match r with
  | .ok new => new
  | .error _ => funds

/-- Both create-fund failure responses are conflict errors: HTTP 400 with
the respective duplicate-id or duplicate-name detail. -/
def isConflict (e : ApiError) : Prop :=
  e = .badRequest "Fund was not created due to ID conflict" ∨
  e = .badRequest "Fund was not created to avoid duplication conflict"

/-! Helper lemmas about the linear scans shared by the handlers. -/

lemma findFund_eq_none {funds : List Fund} {fid : String} :
    funds.find? (fun f => f.fund_id == fid) = none ↔ ∀ f ∈ funds, f.fund_id ≠ fid := by
  simp [List.find?_eq_none]

lemma findFund_decomp {funds : List Fund} {fid : String} {f : Fund}
    (h : funds.find? (fun g => g.fund_id == fid) = some f) :
    ∃ pre post, funds = pre ++ f :: post ∧ (∀ g ∈ pre, g.fund_id ≠ fid) ∧ f.fund_id = fid := by
  induction funds with
  | nil => simp at h
  | cons g rest ih =>
    by_cases hg : g.fund_id = fid
    · rw [List.find?_cons_of_pos _ (by simpa using hg)] at h
      obtain rfl : g = f := Option.some.inj h
      exact ⟨[], rest, by simp, by simp, hg⟩
    · rw [List.find?_cons_of_neg _ (by simpa using hg)] at h
      obtain ⟨pre, post, hfunds, hpre, hf⟩ := ih h
      exact ⟨g :: pre, post, by simp [hfunds], by simpa [hg] using hpre, hf⟩

lemma findFund_of_decomp {pre post : List Fund} {f : Fund} {fid : String}
    (hf : f.fund_id = fid) (hpre : ∀ g ∈ pre, g.fund_id ≠ fid) :
    (pre ++ f :: post).find? (fun g => g.fund_id == fid) = some f := by
  induction pre with
  | nil =>
    rw [List.nil_append]
    exact List.find?_cons_of_pos _ (by simp [hf])
  | cons g rest ih =>
    rw [List.cons_append, List.find?_cons_of_neg _ (by simp [hpre g (List.mem_cons_self g rest)])]
    exact ih fun g hg => hpre g (by simp [hg])

lemma updateFirst_decomp {pre post : List Fund} {f : Fund} {fid : String} {p : Rat}
    (hf : f.fund_id = fid) (hpre : ∀ g ∈ pre, g.fund_id ≠ fid) :
    updateFirst (pre ++ f :: post) fid p = pre ++ { f with performance := p } :: post := by
  induction pre with
  | nil => simp [updateFirst, hf]
  | cons g rest ih =>
    rw [List.cons_append, updateFirst, if_neg (hpre g (by simp)), ih fun g hg => hpre g (by simp [hg])]
    simp

lemma erase_first {pre post : List Fund} {f : Fund} {fid : String}
    (hf : f.fund_id = fid) (hpre : ∀ g ∈ pre, g.fund_id ≠ fid) :
    (pre ++ f :: post).erase f = pre ++ post := by
  have hfpre : f ∉ pre := fun hmem => hpre f hmem hf
  rw [List.erase_append_right _ hfpre, List.erase_cons_head]

lemma update_success {pre post : List Fund} {f : Fund} {fid : String} {p : Rat}
    (hf : f.fund_id = fid) (hpre : ∀ g ∈ pre, g.fund_id ≠ fid) (h0 : 0 ≤ p) (h1 : p ≤ 100) :
    update_fund_performance (pre ++ f :: post) fid p =
      .ok (pre ++ { f with performance := p } :: post) := by
  simp only [update_fund_performance]
  rw [findFund_of_decomp hf hpre, if_neg (not_not_intro ⟨h0, h1⟩), updateFirst_decomp hf hpre]

/-- Two concrete records used to instantiate the contract theorems. -/
def fundA : Fund :=
  ⟨"f1", "Alpha", "A", "d", 100, "2024-01-01T00:00:00Z", 5⟩

/-- A second concrete record, with fund_id and fund_name distinct from fundA. -/
def fundB : Fund :=
  ⟨"f2", "Beta", "B", "e", 200, "2024-01-02T00:00:00Z", 7⟩

/-- C8: listing an empty collection succeeds and returns the empty sequence,
never an error or a not-found failure. -/
theorem C8_list_empty_ok : retrieve_all_funds [] = .ok [] := rfl

/-- C7: GetOne fails with NotFound when no stored record has the requested
fund_id, and returns the first record in stored order with that fund_id
when one exists. -/
theorem C7_get_one_contract (funds : List Fund) (fid : String) :
    ((∀ f ∈ funds, f.fund_id ≠ fid) →
      retrieve_specific_fund funds fid =
        .error (.notFound "Failed to retrieve specific fund.")) ∧
    (∀ f pre post, funds = pre ++ f :: post → f.fund_id = fid →
      (∀ g ∈ pre, g.fund_id ≠ fid) →
      retrieve_specific_fund funds fid = .ok f) := by
  constructor
  · intro habs
    simp only [retrieve_specific_fund]
    rw [findFund_eq_none.mpr habs]
  · rintro f pre post rfl hf hpre
    simp only [retrieve_specific_fund]
    rw [findFund_of_decomp hf hpre]

/-- Witness for C7 at a concrete store: GetOne on f2 returns the record
with fund_id f2. -/
theorem C7_get_one_contract_witness :
    retrieve_specific_fund [fundA, fundB] "f2" = .ok fundB :=
  (C7_get_one_contract [fundA, fundB] "f2").2 fundB [fundA] [] rfl rfl (by decide)

/-- C1: UpdatePerformance fails with NotFound when no record has the given
fund_id; fails with BadRequest, leaving the store unchanged, when a record
is present but the value is outside [0, 100]; otherwise sets that record
performance field to the value and persists the full collection. -/
theorem C1_update_performance_contract (funds : List Fund) (fid : String) (p : Rat) :
    ((∀ f ∈ funds, f.fund_id ≠ fid) →
      update_fund_performance funds fid p =
        .error (.notFound "Failed to update fund performance.")) ∧
    (∀ f, f ∈ funds → f.fund_id = fid → (p < 0 ∨ 100 < p) →
      update_fund_performance funds fid p =
        .error (.badRequest "Failed to update fund performance.") ∧
      storeAfter funds (update_fund_performance funds fid p) = funds) ∧
    (0 ≤ p → p ≤ 100 → ∀ f pre post, funds = pre ++ f :: post → f.fund_id = fid →
      (∀ g ∈ pre, g.fund_id ≠ fid) →
      update_fund_performance funds fid p =
        .ok (pre ++ { f with performance := p } :: post)) := by
  refine ⟨?_, ?_, ?_⟩
  · intro habs
    simp [update_fund_performance, findFund_eq_none.mpr habs]
  · intro f hmem hf hout
    have hne : funds.find? (fun g => g.fund_id == fid) ≠ none := fun hnone =>
      findFund_eq_none.mp hnone f hmem hf
    rcases hfind : funds.find? (fun g => g.fund_id == fid) with _ | g
    · exact absurd hfind hne
    · have hrange : ¬ (0 ≤ p ∧ p ≤ 100) := by
        rcases hout with h | h
        · exact fun hc => absurd hc.1 (not_le.mpr h)
        · exact fun hc => absurd hc.2 (not_le.mpr h)
      refine ⟨?_, ?_⟩ <;> simp [update_fund_performance, hfind, hrange, storeAfter]
  · rintro h0 h1 f pre post rfl hf hpre
    exact update_success hf hpre h0 h1

/-- Witness for C1 at a concrete store: updating f2 to 42 rewrites exactly
the f2 record performance field and persists the full list. -/
theorem C1_update_performance_contract_witness :
    update_fund_performance [fundA, fundB] "f2" 42 =
      .ok ([fundA] ++ { fundB with performance := 42 } :: []) :=
  (C1_update_performance_contract [fundA, fundB] "f2" 42).2.2 (by norm_num) (by norm_num)
    fundB [fundA] [] rfl rfl (by decide)

/-- C5: a successful in-range update changes only the performance field of
the first record matching the fund_id; every other field of that record,
every other record, and the length and order of the collection are
preserved. -/
theorem C5_update_frame (funds : List Fund) (fid : String) (p : Rat) (f : Fund)
    (pre post : List Fund) (hdecomp : funds = pre ++ f :: post) (hf : f.fund_id = fid)
    (hpre : ∀ g ∈ pre, g.fund_id ≠ fid) (h0 : 0 ≤ p) (h1 : p ≤ 100) :
    update_fund_performance funds fid p =
      .ok (pre ++
        { fund_id := f.fund_id
          fund_name := f.fund_name
          manager_name := f.manager_name
          desc := f.desc
          net_asset := f.net_asset
          created_at := f.created_at
          performance := p } :: post) := by
  subst hdecomp
  exact update_success hf hpre h0 h1

/-- Witness for C5 at a concrete store: updating f1 to 42 keeps all other
fields of f1 and the record f2 untouched. -/
theorem C5_update_frame_witness :
    update_fund_performance [fundA, fundB] "f1" 42 =
      .ok ([] ++
        { fund_id := fundA.fund_id
          fund_name := fundA.fund_name
          manager_name := fundA.manager_name
          desc := fundA.desc
          net_asset := fundA.net_asset
          created_at := fundA.created_at
          performance := 42 } :: [fundB]) :=
  C5_update_frame [fundA, fundB] "f1" 42 fundA [] [fundB] rfl rfl (by simp)
    (by norm_num) (by norm_num)

/-- C10: when the fund_id is absent and the performance value is out of
range, UpdatePerformance fails with NotFound, not BadRequest: the
not-found check runs before the range check. -/
theorem C10_update_notfound_precedence (funds : List Fund) (fid : String) (p : Rat)
    (habs : ∀ f ∈ funds, f.fund_id ≠ fid) (hout : p < 0 ∨ 100 < p) :
    update_fund_performance funds fid p =
      .error (.notFound "Failed to update fund performance.") ∧
    ∀ d, update_fund_performance funds fid p ≠ .error (.badRequest d) := by
  have h := findFund_eq_none.mpr habs
  refine ⟨by simp [update_fund_performance, h], fun d hc => ?_⟩
  simp [update_fund_performance, h] at hc

/-- Witness for C10 at a concrete store: an unknown id with the
out-of-range value 150 yields NotFound. -/
theorem C10_update_notfound_precedence_witness :
    update_fund_performance [fundA] "zz" 150 =
      .error (.notFound "Failed to update fund performance.") :=
  (C10_update_notfound_precedence [fundA] "zz" 150 (by decide)
    (Or.inr (by norm_num))).1

lemma create_fund_ok {funds : List Fund} {fund : Fund} {new : List Fund}
    (h : create_fund funds fund = .ok new) :
    (∀ f ∈ funds, f.fund_id ≠ fund.fund_id) ∧ (∀ f ∈ funds, f.fund_name ≠ fund.fund_name) ∧
    new = funds ++ [fund] := by
  by_cases hid : (funds.any fun f => f.fund_id == fund.fund_id) = true
  · simp [create_fund, hid] at h
  · by_cases hname : (funds.any fun f => f.fund_name == fund.fund_name) = true
    · simp [create_fund, hid, hname] at h
    · simp only [create_fund, if_neg hid, if_neg hname] at h
      simp only [List.any_eq_true, beq_iff_eq, not_exists] at hid hname
      refine ⟨fun f hf => ?_, fun f hf => ?_, (Except.ok.inj h).symm⟩
      · exact fun he => hid f ⟨hf, he⟩
      · exact fun he => hname f ⟨hf, he⟩

lemma update_fund_performance_ok {funds : List Fund} {fid : String} {p : Rat}
    {new : List Fund} (h : update_fund_performance funds fid p = .ok new) :
    new = updateFirst funds fid p := by
  rcases hfind : funds.find? (fun g => g.fund_id == fid) with _ | g
  · simp [update_fund_performance, hfind] at h
  · simp only [update_fund_performance, hfind] at h
    by_cases hr : 0 ≤ p ∧ p ≤ 100
    · rw [if_neg (not_not_intro hr)] at h
      exact (Except.ok.inj h).symm
    · rw [if_pos hr] at h
      cases h

lemma delete_fund_ok {funds : List Fund} {fid : String} {new : List Fund}
    (h : delete_fund funds fid = .ok new) :
    ∃ f, new = funds.erase f := by
  rcases hfind : funds.find? (fun g => g.fund_id == fid) with _ | g
  · simp [delete_fund, hfind] at h
  · simp only [delete_fund, hfind] at h
    exact ⟨g, (Except.ok.inj h).symm⟩

lemma updateFirst_map_fund_id (funds : List Fund) (fid : String) (p : Rat) :
    (updateFirst funds fid p).map Fund.fund_id = funds.map Fund.fund_id := by
  induction funds with
  | nil => rfl
  | cons f rest ih => by_cases hf : f.fund_id = fid <;> simp [updateFirst, hf, ih]

lemma updateFirst_map_fund_name (funds : List Fund) (fid : String) (p : Rat) :
    (updateFirst funds fid p).map Fund.fund_name = funds.map Fund.fund_name := by
  induction funds with
  | nil => rfl
  | cons f rest ih => by_cases hf : f.fund_id = fid <;> simp [updateFirst, hf, ih]

/-- C2: Create fails with a Conflict error when the submitted fund_id is
already stored, fails with a Conflict error when the submitted fund_name is
already stored, and in both failure cases the stored collection is
unchanged; otherwise the new record is appended at the end and persisted. -/
theorem C2_create_contract (funds : List Fund) (fund : Fund) :
    ((∃ f ∈ funds, f.fund_id = fund.fund_id) →
      create_fund funds fund =
        .error (.badRequest "Fund was not created due to ID conflict") ∧
      storeAfter funds (create_fund funds fund) = funds) ∧
    ((∃ f ∈ funds, f.fund_name = fund.fund_name) →
      ∃ e, create_fund funds fund = .error e ∧ isConflict e ∧
        storeAfter funds (create_fund funds fund) = funds) ∧
    ((∀ f ∈ funds, f.fund_id ≠ fund.fund_id) → (∀ f ∈ funds, f.fund_name ≠ fund.fund_name) →
      create_fund funds fund = .ok (funds ++ [fund])) := by
  refine ⟨?_, ?_, ?_⟩
  · intro hdup
    have hid : (funds.any fun f => f.fund_id == fund.fund_id) = true := by
      simpa [List.any_eq_true] using hdup
    constructor <;> simp [create_fund, hid, storeAfter]
  · intro hdup
    have hname : (funds.any fun f => f.fund_name == fund.fund_name) = true := by
      simpa [List.any_eq_true] using hdup
    by_cases hid : (funds.any fun f => f.fund_id == fund.fund_id) = true
    · exact ⟨.badRequest "Fund was not created due to ID conflict",
        by simp [create_fund, hid], Or.inl rfl, by simp [create_fund, hid, storeAfter]⟩
    · exact ⟨.badRequest "Fund was not created to avoid duplication conflict",
        by simp [create_fund, hid, hname], Or.inr rfl,
        by simp [create_fund, hid, hname, storeAfter]⟩
  · intro hno_id hno_name
    have hid : ¬ (funds.any fun f => f.fund_id == fund.fund_id) = true := by
      simp only [List.any_eq_true, beq_iff_eq, not_exists]
      exact fun f hf => hno_id f hf.1 hf.2
    have hname : ¬ (funds.any fun f => f.fund_name == fund.fund_name) = true := by
      simp only [List.any_eq_true, beq_iff_eq, not_exists]
      exact fun f hf => hno_name f hf.1 hf.2
    simp [create_fund, hid, hname]

/-- Witness for C2 at a concrete store: re-creating the stored fund_id
fails with the duplicate-id conflict response. -/
theorem C2_create_contract_witness :
    create_fund [fundA] fundA =
      .error (.badRequest "Fund was not created due to ID conflict") :=
  ((C2_create_contract [fundA] fundA).1 ⟨fundA, by simp, rfl⟩).1

/-- C3: a collection with pairwise distinct fund_id values and pairwise
distinct fund_name values keeps both uniqueness properties under any
successful Create, UpdatePerformance, or Delete. -/
theorem C3_uniqueness_preserved (funds new : List Fund) (fund : Fund) (fid : String)
    (p : Rat) (hid : (funds.map Fund.fund_id).Nodup)
    (hname : (funds.map Fund.fund_name).Nodup)
    (h : create_fund funds fund = .ok new ∨
      update_fund_performance funds fid p = .ok new ∨ delete_fund funds fid = .ok new) :
    (new.map Fund.fund_id).Nodup ∧ (new.map Fund.fund_name).Nodup := by
  rcases h with h | h | h
  · obtain ⟨hi, hn, rfl⟩ := create_fund_ok h
    constructor
    · have hmem : fund.fund_id ∉ funds.map Fund.fund_id := by
        simp only [List.mem_map, not_exists]
        exact fun g hg => hi g hg.1 hg.2
      simpa [List.map_append, List.nodup_append, hid] using hmem
    · have hmem : fund.fund_name ∉ funds.map Fund.fund_name := by
        simp only [List.mem_map, not_exists]
        exact fun g hg => hn g hg.1 hg.2
      simpa [List.map_append, List.nodup_append, hname] using hmem
  · obtain rfl : new = updateFirst funds fid p := update_fund_performance_ok h
    rw [updateFirst_map_fund_id, updateFirst_map_fund_name]
    exact ⟨hid, hname⟩
  · obtain ⟨f, rfl⟩ := delete_fund_ok h
    have hsub := funds.erase_sublist f
    exact ⟨(hsub.map Fund.fund_id).nodup hid, (hsub.map Fund.fund_name).nodup hname⟩

/-- Witness for C3 at a concrete store: creating a fresh record on a
one-record store keeps ids and names pairwise distinct. -/
theorem C3_uniqueness_preserved_witness :
    ([fundA, fundB].map Fund.fund_id).Nodup ∧ ([fundA, fundB].map Fund.fund_name).Nodup :=
  C3_uniqueness_preserved [fundA] [fundA, fundB] fundB "x" 0 (by decide) (by decide)
    (Or.inl (by rfl))

/-- C4: with pairwise distinct fund_id values, Delete on an absent id fails
with NotFound leaving the collection unchanged; Delete on a present id
removes exactly that one record, keeping every other record, and a
subsequent GetOne on that id against the result fails with NotFound. -/
theorem C4_delete_contract (funds : List Fund) (fid : String)
    (hnodup : (funds.map Fund.fund_id).Nodup) :
    ((∀ f ∈ funds, f.fund_id ≠ fid) →
      delete_fund funds fid = .error (.notFound "Failed to delete fund") ∧
      storeAfter funds (delete_fund funds fid) = funds) ∧
    (∀ f pre post, funds = pre ++ f :: post → f.fund_id = fid →
      delete_fund funds fid = .ok (pre ++ post) ∧
      (pre ++ post).length + 1 = funds.length ∧
      retrieve_specific_fund (pre ++ post) fid =
        .error (.notFound "Failed to retrieve specific fund.")) := by
  constructor
  · intro habs
    constructor <;> simp [delete_fund, findFund_eq_none.mpr habs, storeAfter]
  · rintro f pre post rfl hf
    rw [List.map_append, List.map_cons] at hnodup
    have hsplit := List.nodup_append.mp hnodup
    have hpre : ∀ g ∈ pre, g.fund_id ≠ fid := by
      intro g hg he
      exact hsplit.2.2 (List.mem_map_of_mem Fund.fund_id hg) (by simp [he, hf])
    have hpost : ∀ g ∈ post, g.fund_id ≠ fid := by
      intro g hg he
      have hmem : g.fund_id ∈ post.map Fund.fund_id := List.mem_map_of_mem Fund.fund_id hg
      rw [he, ← hf] at hmem
      exact (List.nodup_cons.mp hsplit.2.1).1 hmem
    refine ⟨?_, by simp [List.length_append]; omega, ?_⟩
    · have hfind := @findFund_of_decomp pre post f fid hf hpre
      simp [delete_fund, hfind, erase_first hf hpre]
    · simp only [retrieve_specific_fund]
      rw [findFund_eq_none.mpr ?_]
      intro g hg
      rcases List.mem_append.mp hg with h | h
      exacts [hpre g h, hpost g h]

/-- Witness for C4 at a concrete store: deleting f1 from a two-record store
keeps exactly the other record and GetOne on f1 then fails. -/
theorem C4_delete_contract_witness :
    delete_fund [fundA, fundB] "f1" = .ok ([] ++ [fundB]) ∧
    ([] ++ [fundB]).length + 1 = [fundA, fundB].length ∧
    retrieve_specific_fund ([] ++ [fundB]) "f1" =
      .error (.notFound "Failed to retrieve specific fund.") :=
  (C4_delete_contract [fundA, fundB] "f1" (by decide)).2 fundA [] [fundB] rfl rfl

/-- C6: Create enforces no range on performance: a payload that the
FundDetails model accepts, whose performance lies outside [0, 100] and
whose fund_id and fund_name are fresh, is appended and persisted rather
than rejected. -/
theorem C6_create_no_range_check (funds : List Fund) (i n m d c : String) (a p : Rat)
    (hout : p < 0 ∨ 100 < p)
    (hid : ∀ f ∈ funds, f.fund_id ≠ i) (hname : ∀ f ∈ funds, f.fund_name ≠ n) :
    fundDetails (.str i) (.str n) (.str m) (.str d) (.num a) (.str c) (.num p) =
      some ⟨i, n, m, d, a, c, p⟩ ∧
    create_fund funds ⟨i, n, m, d, a, c, p⟩ = .ok (funds ++ [⟨i, n, m, d, a, c, p⟩]) := by
  refine ⟨rfl, ?_⟩
  have h1 : ¬ (funds.any fun f => f.fund_id == (⟨i, n, m, d, a, c, p⟩ : Fund).fund_id) = true := by
    simp only [List.any_eq_true, beq_iff_eq, not_exists]
    exact fun f hf => hid f hf.1 hf.2
  have h2 : ¬ (funds.any fun f => f.fund_name == (⟨i, n, m, d, a, c, p⟩ : Fund).fund_name) = true := by
    simp only [List.any_eq_true, beq_iff_eq, not_exists]
    exact fun f hf => hname f hf.1 hf.2
  simp [create_fund, h1, h2]

/-- Witness for C6: a fresh fund with performance 150 passes the model and
is created. -/
theorem C6_create_no_range_check_witness :
    fundDetails (.str "f3") (.str "Gamma") (.str "C") (.str "g") (.num 50)
        (.str "2024-01-03T00:00:00Z") (.num 150) =
      some ⟨"f3", "Gamma", "C", "g", 50, "2024-01-03T00:00:00Z", 150⟩ ∧
    create_fund [fundA] ⟨"f3", "Gamma", "C", "g", 50, "2024-01-03T00:00:00Z", 150⟩ =
      .ok ([fundA] ++ [⟨"f3", "Gamma", "C", "g", 50, "2024-01-03T00:00:00Z", 150⟩]) :=
  C6_create_no_range_check [fundA] "f3" "Gamma" "C" "g" "2024-01-03T00:00:00Z" 50 150
    (Or.inr (by norm_num)) (by decide) (by decide)

/-- The exception the dict-building step raises for a raw record, when any
key is absent: the uncaught KeyError for the first absent key in
dict-literal order; none when all seven keys are present. -/
def keyErrorOf (r : RawFund) : Option ApiError :=
  if r.fund_id.isNone then some (.uncaught "KeyError: fund_id")
  else if r.fund_name.isNone then some (.uncaught "KeyError: fund_name")
  else if r.manager_name.isNone then some (.uncaught "KeyError: manager_name")
  else if r.desc.isNone then some (.uncaught "KeyError: desc")
  else if r.net_asset.isNone then some (.uncaught "KeyError: net_asset")
  else if r.created_at.isNone then some (.uncaught "KeyError: created_at")
  else if r.performance.isNone then some (.uncaught "KeyError: performance")
  else none

lemma rawToFund_error_shape {r : RawFund} {e : ApiError} (h : rawToFund r = .error e) :
    (keyErrorOf r = none →
      e = .badRequest "Failed to retrieve all funds: validation error") ∧
    (∀ er, keyErrorOf r = some er → e = er) := by
  obtain ⟨o1, o2, o3, o4, o5, o6, o7⟩ := r
  cases o1 <;> cases o2 <;> cases o3 <;> cases o4 <;> cases o5 <;> cases o6 <;> cases o7 <;>
    simp_all [rawToFund, keyErrorOf]
  rename_i v1 v2 v3 v4 v5 v6 v7
  rcases hfd : fundDetails v1 v2 v3 v4 v5 v6 v7 with _ | fd <;> simp_all

lemma mapFunds_error_first {pre rest : List RawFund} {r : RawFund} {e : ApiError}
    (hpre : ∀ g ∈ pre, ∃ fd, rawToFund g = .ok fd) (herr : rawToFund r = .error e) :
    mapFunds (pre ++ r :: rest) = .error e := by
  induction pre with
  | nil => simp [mapFunds, herr]
  | cons g gs ih =>
    obtain ⟨fd, hfd⟩ := hpre g (by simp)
    have htail := ih fun g hg => hpre g (by simp [hg])
    simp [mapFunds, hfd, htail]

/-- A raw stored record with all keys present and well-typed fields. -/
def rawGood : RawFund :=
  ⟨some (.str "f1"), some (.str "Alpha"), some (.str "A"), some (.str "d"),
   some (.num 100), some (.str "2024-01-01T00:00:00Z"), some (.num 5)⟩

/-- A raw stored record with all keys present but a mistyped performance
field (a string instead of a number). -/
def rawBadType : RawFund :=
  ⟨some (.str "f2"), some (.str "Beta"), some (.str "B"), some (.str "e"),
   some (.num 200), some (.str "2024-01-02T00:00:00Z"), some (.str "seven")⟩

/-- A raw stored record whose performance key is absent entirely. -/
def rawMissingPerf : RawFund :=
  ⟨some (.str "fund001"), some (.str "Global Equity Fund"), some (.str "John Doe"),
   some (.str "A diversified equity fund."), some (.num 100),
   some (.str "2024-08-22T14:30:00Z"), none⟩

/-- Counterexample to C9: on a collection whose single record is missing
the performance key, List fails with the uncaught KeyError that the dict
building raises, which the handler does not catch; the response is not a
client-facing BadRequest validation error for any detail string. -/
theorem C9_list_validation_counterexample :
    retrieve_all_funds [rawMissingPerf] = .error (.uncaught "KeyError: performance") ∧
    ∀ d, retrieve_all_funds [rawMissingPerf] ≠ .error (.badRequest d) := by
  have h1 : retrieve_all_funds [rawMissingPerf] =
      .error (.uncaught "KeyError: performance") := rfl
  refine ⟨h1, fun d hc => ?_⟩
  rw [h1] at hc
  simp at hc

/-- C9 amended: when the first invalid stored record is reached, the whole
List operation fails with exactly that record's error, never skipping it:
a client-facing BadRequest validation error when all seven keys are
present but a field is mistyped, and the uncaught KeyError (an internal
server error, not a client-facing validation error) when a key is
absent. -/
theorem C9_list_failfast_amended (pre rest : List RawFund) (r : RawFund) (e : ApiError)
    (hpre : ∀ g ∈ pre, ∃ fd, rawToFund g = .ok fd) (herr : rawToFund r = .error e) :
    retrieve_all_funds (pre ++ r :: rest) = .error e ∧
    (keyErrorOf r = none →
      e = .badRequest "Failed to retrieve all funds: validation error") ∧
    (∀ er, keyErrorOf r = some er → e = er) := by
  have hne : ¬ (pre ++ r :: rest).length = 0 := by simp
  have hshape := rawToFund_error_shape herr
  refine ⟨?_, hshape.1, hshape.2⟩
  simp only [retrieve_all_funds, if_neg hne]
  exact mapFunds_error_first hpre herr

/-- Witness for the amended C9: a valid record followed by a mistyped one
makes List fail with the BadRequest validation error, with no partial
result. -/
theorem C9_list_failfast_amended_witness :
    retrieve_all_funds ([rawGood] ++ rawBadType :: []) =
      .error (.badRequest "Failed to retrieve all funds: validation error") :=
  (C9_list_failfast_amended [rawGood] [] rawBadType
    (.badRequest "Failed to retrieve all funds: validation error")
    (fun g hg => by rw [List.mem_singleton] at hg; subst hg; exact ⟨_, rfl⟩) rfl).1

end FundApi
